import Mathlib

/-!
Verification of `utils/deployment.py` (PyBase repository).

The script is a deployment helper: it resolves the current user from
environment variables, runs git subcommands through a small command runner,
adjusts file permission bits, writes a `.env` file and reports the deployment
over HTTP.  Every external effect is modelled by an explicit oracle:

* `proc : List String → ProcOutcome` gives, for an argument vector, the exit
  code, stdout and stderr of the spawned process (`subprocess.run`);
* `path_exists : String → Bool` models `os.path.exists`;
* `env : String → Option String` models `os.getenv` (`none` = unset);
* a `List WalkFile` is the sequence of files yielded by `os.walk`;
* `net : DeployPayload → HttpOutcome` models `requests.post` for the payload.

The functions below are line-by-line translations of the Python source; the
`issued` field records, in order, the argument vectors handed to
`execute_command`, so that statements about which git commands run can be
made.
-/

/-- Outcome of spawning an external process: exit code and captured text
streams (`subprocess.run(..., capture_output=True, text=True)`). -/
structure ProcOutcome where
  returncode : Nat
  stdout : String
  stderr : String
deriving DecidableEq, Repr

/-- Result dictionary of `execute_command`: either
`{"success": True, "output": ...}` or `{"success": False, "error": ...}`. -/
inductive CmdResult where
  | ok (output : String)
  | err (error : String)
deriving DecidableEq, Repr

/-- The `"success"` field of a command result. -/
def CmdResult.success : CmdResult → Bool
  | .ok _ => true
  | .err _ => false

/-- Model of Python `str.strip()` with no argument: remove leading and
trailing whitespace. -/
def pyStrip (s : String) : String :=
  ⟨((s.data.dropWhile Char.isWhitespace).reverse.dropWhile
      Char.isWhitespace).reverse⟩

/-- Model of Python `str.endswith(suffix)`. -/
def pyEndsWith (s suffix : String) : Bool :=
  suffix.data.isSuffixOf s.data

/-- Model of Python `str.startswith(prefix_str)`. -/
def pyStartsWith (s pre : String) : Bool :=
  pre.data.isPrefixOf s.data

/-- Model of Python `str(e)` for a `subprocess.CalledProcessError`: a message
naming the command and its non-zero exit status. -/
def str_called_process_error (command : List String) (returncode : Nat) : String :=
  "Command " ++ toString command ++ " returned non-zero exit status "
    ++ toString returncode ++ "."

/-- `execute_command(command)`: run the process; on exit code 0 return success
with stripped stdout, otherwise return failure with stripped stderr, or with
`str(e)` when stderr is empty (Python tests `e.stderr` before stripping). -/
def execute_command (proc : List String → ProcOutcome) (command : List String) :
    CmdResult :=
  let result := proc command
  if result.returncode = 0 then
    .ok (pyStrip result.stdout)
  else if result.stderr = "" then
    .err (str_called_process_error command result.returncode)
  else
    .err (pyStrip result.stderr)

/-- Python truthiness of an optional string (`if commit_hash:`):
`None` and `""` are falsy. -/
def truthy : Option String → Bool
  | none => false
  | some s => s ≠ ""

/-- `["git", "clone", "-b", branch, repo_url, local_dir]`. -/
def cloneCmd (branch repo_url local_dir : String) : List String :=
  ["git", "clone", "-b", branch, repo_url, local_dir]

/-- `["git", "-C", local_dir, "fetch"]`. -/
def fetchCmd (local_dir : String) : List String :=
  ["git", "-C", local_dir, "fetch"]

/-- `["git", "-C", local_dir, "checkout", ref]`. -/
def checkoutCmd (local_dir ref : String) : List String :=
  ["git", "-C", local_dir, "checkout", ref]

/-- `["git", "-C", local_dir, "pull", "origin", branch]`. -/
def pullCmd (local_dir branch : String) : List String :=
  ["git", "-C", local_dir, "pull", "origin", branch]

/-- Result of `clone_or_update_repo`: the returned command result, the final
log list, and (instrumentation) the argument vectors passed to
`execute_command`, in order. -/
structure SyncOut where
  result : CmdResult
  logs : List String
  issued : List (List String)
deriving DecidableEq, Repr

/-- The part of `clone_or_update_repo` after the initial clone-or-fetch:
`if not response["success"]: return response`, then either checkout of the
commit hash, or checkout of the branch followed (on success) by a pull. -/
def cloneOrUpdateRest (proc : List String → ProcOutcome) (branch : String)
    (commit_hash : Option String) (local_dir : String) (logs : List String)
    (response : CmdResult) (issued : List (List String)) : SyncOut :=
  if !response.success then
    ⟨response, logs, issued⟩
  else if truthy commit_hash then
    let h := commit_hash.getD ""
    let logs := logs ++ ["Checking out specific commit " ++ h]
    ⟨execute_command proc (checkoutCmd local_dir h), logs,
      issued ++ [checkoutCmd local_dir h]⟩
  else
    let logs := logs ++ ["Pulling latest commit from branch " ++ branch]
    let response2 := execute_command proc (checkoutCmd local_dir branch)
    let issued2 := issued ++ [checkoutCmd local_dir branch]
    if response2.success then
      ⟨execute_command proc (pullCmd local_dir branch), logs,
        issued2 ++ [pullCmd local_dir branch]⟩
    else
      ⟨response2, logs, issued2⟩

/-- `clone_or_update_repo(repo_url, branch, commit_hash, local_dir, logs)`:
clone when the directory does not exist, otherwise fetch, then hand the first
result to the continuation `cloneOrUpdateRest`. -/
def clone_or_update_repo (path_exists : String → Bool)
    (proc : List String → ProcOutcome) (repo_url branch : String)
    (commit_hash : Option String) (local_dir : String) (logs : List String) :
    SyncOut :=
  if !(path_exists local_dir) then
    let logs := logs ++ ["Cloning repository " ++ repo_url ++ " into " ++ local_dir]
    let response := execute_command proc (cloneCmd branch repo_url local_dir)
    cloneOrUpdateRest proc branch commit_hash local_dir logs response
      [cloneCmd branch repo_url local_dir]
  else
    let logs := logs ++ ["Repository already exists. Fetching latest changes."]
    let response := execute_command proc (fetchCmd local_dir)
    cloneOrUpdateRest proc branch commit_hash local_dir logs response
      [fetchCmd local_dir]

/-- One file yielded by `os.walk`: the directory it sits in (`root`), its bare
file name, and its current permission bits. -/
structure WalkFile where
  root : String
  name : String
  mode : Nat
deriving DecidableEq, Repr

/-- Result of a permission sweep: the files with their (possibly changed)
permission bits, and the final log list. -/
structure PermOut where
  files : List WalkFile
  logs : List String
deriving DecidableEq, Repr

/-- Model of `os.path.join(a, b)` for POSIX paths. -/
def os_path_join (a b : String) : String :=
  if pyStartsWith b "/" then b
  else if a = "" then b
  else if pyEndsWith a "/" then a ++ b
  else a ++ "/" ++ b

/-- `set_permission_readonly(local_dir, exclude_ext, logs)`: walk the files in
order; every file whose name does not end with `exclude_ext` gets
`os.chmod(path, 0o444)` and a log entry; excluded files are skipped. -/
def set_permission_readonly : List WalkFile → String → List String → PermOut
  | [], _, logs => ⟨[], logs⟩
  | f :: rest, exclude_ext, logs =>
    if pyEndsWith f.name exclude_ext then
      let out := set_permission_readonly rest exclude_ext logs
      ⟨f :: out.files, out.logs⟩
    else
      let out := set_permission_readonly rest exclude_ext
        (logs ++ ["Set " ++ os_path_join f.root f.name ++ " to read-only."])
      ⟨{ f with mode := 0o444 } :: out.files, out.logs⟩

/-- `set_permission_full(local_dir, logs)`: walk the files in order; every
file gets `os.chmod(path, 0o777)` and a log entry. -/
def set_permission_full : List WalkFile → List String → PermOut
  | [], logs => ⟨[], logs⟩
  | f :: rest, logs =>
    let out := set_permission_full rest
      (logs ++ ["Set " ++ os_path_join f.root f.name ++ " to full permission."])
    ⟨{ f with mode := 0o777 } :: out.files, out.logs⟩

/-- A file-content store: maps a path to the contents of the file there, or
`none` when no file exists at that path. -/
def FileStore := String → Option String

/-- The text written by `create_env_file` for the entries of `env_config`
(a Python dict iterated in insertion order): one line
`KEY = 'VALUE'\n` per entry, the value single-quoted. -/
def envFileContent (env_config : List (String × String)) : String :=
  String.join (env_config.map (fun kv => kv.1 ++ " = \x27" ++ kv.2 ++ "\x27\n"))

/-- `create_env_file(local_dir, env_config)`: print a notice and open
`local_dir/.env` in mode `"w"` (truncating any existing file), writing one
line per entry.  Returns the updated store and the printed lines. -/
def create_env_file (fs : FileStore) (local_dir : String)
    (env_config : List (String × String)) : FileStore × List String :=
  let file_path := os_path_join local_dir ".env"
  (fun p => if p = file_path then some (envFileContent env_config) else fs p,
   ["Creating .env file at " ++ file_path])

/-- The JSON payload `deploy_repo` posts to `{server_url}/deploy`. -/
structure DeployPayload where
  username : String
  repo_url : String
  branch : String
  commit_hash : Option String
  local_dir : String
  exclude_ext : String
deriving DecidableEq, Repr

/-- Outcome of `requests.post`: either a `RequestException` with message
`msg`, or a response with an HTTP status code and a body.  The body is
`some s` when it is valid JSON, with `s` its pretty-printed form
(`json.dumps(response_data, indent=4)`), and `none` when `response.json()`
would fail. -/
inductive HttpOutcome where
  | failure (msg : String)
  | response (status : Nat) (jsonBody : Option String)
deriving DecidableEq, Repr

/-- `deploy_repo(...)`: build the payload, POST it; a `RequestException` is
caught and printed; otherwise the body is parsed as JSON (raising on invalid
JSON, modelled as `.error`), `"Deployment successful!"` or
`"Deployment failed!"` is printed according to `status_code == 200`, then the
pretty-printed body is printed.  The result is the list of printed lines, or
`.error` when an exception escapes. -/
def deploy_repo (net : DeployPayload → HttpOutcome) (username server_url : String)
    (repo_url branch : String) (commit_hash : Option String)
    (local_dir exclude_ext : String) : Except String (List String) :=
  let payload : DeployPayload :=
    ⟨username, repo_url, branch, commit_hash, local_dir, exclude_ext⟩
  match net payload with
  | .failure e => .ok ["Error: " ++ e]
  | .response status jsonBody =>
    match jsonBody with
    | none => .error ("JSONDecodeError from " ++ server_url ++ "/deploy")
    | some response_data =>
      .ok [(if status = 200 then "Deployment successful!" else "Deployment failed!"),
           response_data]

/-- Python `a or b` on optional strings: `a` when it is set and non-empty
(truthy), otherwise `b`. -/
def pyOr (a b : Option String) : Option String :=
  match a with
  | some s => if s = "" then b else some s
  | none => b

/-- `get_username()`: `os.getenv("USERNAME") or os.getenv("USER")`. -/
def get_username (env : String → Option String) : Option String :=
  pyOr (env "USERNAME") (env "USER")

/-! ### Helper lemmas -/

/-- The commands a run of `cloneOrUpdateRest` appends to the already-issued
list, by case on the first result and the commit hash. -/
theorem cloneOrUpdateRest_issued (proc : List String → ProcOutcome)
    (branch : String) (commit_hash : Option String) (local_dir : String)
    (logs : List String) (response : CmdResult) (issued : List (List String)) :
    (cloneOrUpdateRest proc branch commit_hash local_dir logs response issued).issued =
      issued ++
        (if !response.success then []
         else if truthy commit_hash then [checkoutCmd local_dir (commit_hash.getD "")]
         else if (execute_command proc (checkoutCmd local_dir branch)).success then
           [checkoutCmd local_dir branch, pullCmd local_dir branch]
         else [checkoutCmd local_dir branch]) := by
  unfold cloneOrUpdateRest
  cases hs : response.success
  · simp [hs]
  · cases ht : truthy commit_hash
    · cases hc : (execute_command proc (checkoutCmd local_dir branch)).success <;>
        simp [hs, ht, hc, List.append_assoc]
    · simp [hs, ht]

/-- `cloneOrUpdateRest` only ever appends to its log argument. -/
theorem cloneOrUpdateRest_logs (proc : List String → ProcOutcome)
    (branch : String) (commit_hash : Option String) (local_dir : String)
    (logs : List String) (response : CmdResult) (issued : List (List String)) :
    ∃ t, (cloneOrUpdateRest proc branch commit_hash local_dir logs response issued).logs =
      logs ++ t := by
  unfold cloneOrUpdateRest
  cases hs : response.success
  · exact ⟨[], by simp [hs]⟩
  · cases ht : truthy commit_hash
    · cases hc : (execute_command proc (checkoutCmd local_dir branch)).success <;>
        exact ⟨["Pulling latest commit from branch " ++ branch], by simp [hs, ht, hc]⟩
    · exact ⟨["Checking out specific commit " ++ commit_hash.getD ""], by simp [hs, ht]⟩

/-- `set_permission_readonly` only ever appends to its log argument. -/
theorem set_permission_readonly_logs (files : List WalkFile) (exclude_ext : String) :
    ∀ logs, ∃ t, (set_permission_readonly files exclude_ext logs).logs = logs ++ t := by
  induction files with
  | nil => exact fun logs => ⟨[], by simp [set_permission_readonly]⟩
  | cons f rest ih =>
    intro logs
    unfold set_permission_readonly
    cases h : pyEndsWith f.name exclude_ext
    · obtain ⟨t, ht⟩ :=
        ih (logs ++ ["Set " ++ os_path_join f.root f.name ++ " to read-only."])
      exact ⟨("Set " ++ os_path_join f.root f.name ++ " to read-only.") :: t,
        by simp [h, ht, List.append_assoc]⟩
    · obtain ⟨t, ht⟩ := ih logs
      exact ⟨t, by simp [h, ht]⟩

/-- `set_permission_full` only ever appends to its log argument. -/
theorem set_permission_full_logs (files : List WalkFile) :
    ∀ logs, ∃ t, (set_permission_full files logs).logs = logs ++ t := by
  induction files with
  | nil => exact fun logs => ⟨[], by simp [set_permission_full]⟩
  | cons f rest ih =>
    intro logs
    unfold set_permission_full
    obtain ⟨t, ht⟩ :=
      ih (logs ++ ["Set " ++ os_path_join f.root f.name ++ " to full permission."])
    exact ⟨("Set " ++ os_path_join f.root f.name ++ " to full permission.") :: t,
      by simp [ht, List.append_assoc]⟩

/-! ### Claim theorems -/

/-- C1 counterexample: with a non-existent local directory, an all-succeeding
process oracle and no commit hash, `clone_or_update_repo` issues a checkout
and a pull after the clone — not only a clone. -/
theorem clone_missing_dir_not_only_clone :
    ((clone_or_update_repo (fun _ => false) (fun _ => ProcOutcome.mk 0 "" "")
        "R" "B" none "D" []).issued =
      [cloneCmd "B" "R" "D", checkoutCmd "D" "B", pullCmd "D" "B"]) ∧
    (clone_or_update_repo (fun _ => false) (fun _ => ProcOutcome.mk 0 "" "")
        "R" "B" none "D" []).issued ≠ [cloneCmd "B" "R" "D"] := by
  constructor <;> decide

/-- C1 amended: with a non-existent local directory, the first command issued
is a git clone with exactly the supplied branch and URL, no fetch command is
ever issued, and if the clone fails no further command is issued; a
successful clone is however followed by checkout (and possibly pull)
commands. -/
theorem clone_missing_dir_clone_first (path_exists : String → Bool)
    (proc : List String → ProcOutcome) (repo_url branch : String)
    (commit_hash : Option String) (local_dir : String) (logs : List String)
    (hdir : path_exists local_dir = false) :
    ((clone_or_update_repo path_exists proc repo_url branch commit_hash
        local_dir logs).issued.head? = some (cloneCmd branch repo_url local_dir)) ∧
    fetchCmd local_dir ∉
      (clone_or_update_repo path_exists proc repo_url branch commit_hash
        local_dir logs).issued ∧
    ((execute_command proc (cloneCmd branch repo_url local_dir)).success = false →
      (clone_or_update_repo path_exists proc repo_url branch commit_hash
        local_dir logs).issued = [cloneCmd branch repo_url local_dir]) := by
  have hiss : (clone_or_update_repo path_exists proc repo_url branch commit_hash
      local_dir logs).issued =
      [cloneCmd branch repo_url local_dir] ++
        (if !(execute_command proc (cloneCmd branch repo_url local_dir)).success then []
         else if truthy commit_hash then [checkoutCmd local_dir (commit_hash.getD "")]
         else if (execute_command proc (checkoutCmd local_dir branch)).success then
           [checkoutCmd local_dir branch, pullCmd local_dir branch]
         else [checkoutCmd local_dir branch]) := by
    unfold clone_or_update_repo
    rw [hdir]
    simpa using cloneOrUpdateRest_issued proc branch commit_hash local_dir _ _ _
  refine ⟨by rw [hiss]; rfl, ?_, fun hfail => by rw [hiss]; simp [hfail]⟩
  rw [hiss]
  intro hmem
  rcases List.mem_append.mp hmem with hm | hm
  · simp [fetchCmd, cloneCmd] at hm
  · split at hm
    · simp at hm
    · split at hm
      · simp_all [fetchCmd, checkoutCmd]
      · split at hm <;> simp_all [fetchCmd, checkoutCmd, pullCmd]

/-- Witness for C1 amended: non-existent directory with a failing clone —
only the clone command is issued, its head is the clone, and no fetch
appears. -/
theorem clone_missing_dir_clone_first_witness :
    ((clone_or_update_repo (fun _ => false) (fun _ => ProcOutcome.mk 1 "" "bad")
        "R" "B" none "D" []).issued.head? = some (cloneCmd "B" "R" "D")) ∧
    fetchCmd "D" ∉
      (clone_or_update_repo (fun _ => false) (fun _ => ProcOutcome.mk 1 "" "bad")
        "R" "B" none "D" []).issued ∧
    ((execute_command (fun _ => ProcOutcome.mk 1 "" "bad")
        (cloneCmd "B" "R" "D")).success = false →
      (clone_or_update_repo (fun _ => false) (fun _ => ProcOutcome.mk 1 "" "bad")
        "R" "B" none "D" []).issued = [cloneCmd "B" "R" "D"]) :=
  clone_missing_dir_clone_first (fun _ => false) (fun _ => ProcOutcome.mk 1 "" "bad")
    "R" "B" none "D" [] rfl

/-- C2: with an existing local directory and no commit hash, when fetch,
checkout and pull all succeed, `clone_or_update_repo` issues exactly
fetch, then checkout of the branch, then pull from origin of that branch,
in that order. -/
theorem existing_dir_no_commit_sequence (path_exists : String → Bool)
    (proc : List String → ProcOutcome) (repo_url branch local_dir : String)
    (logs : List String)
    (hdir : path_exists local_dir = true)
    (hfetch : (execute_command proc (fetchCmd local_dir)).success = true)
    (hco : (execute_command proc (checkoutCmd local_dir branch)).success = true)
    (hpull : (execute_command proc (pullCmd local_dir branch)).success = true) :
    (clone_or_update_repo path_exists proc repo_url branch none local_dir
        logs).issued =
      [fetchCmd local_dir, checkoutCmd local_dir branch, pullCmd local_dir branch] := by
  unfold clone_or_update_repo
  rw [hdir]
  rw [show (!true) = false from rfl]
  simp only [Bool.false_eq_true, if_false]
  rw [cloneOrUpdateRest_issued]
  simp [hfetch, hco, truthy]

/-- Witness for C2: all commands succeed on an existing directory. -/
theorem existing_dir_no_commit_sequence_witness :
    (clone_or_update_repo (fun _ => true) (fun _ => ProcOutcome.mk 0 "" "")
        "R" "B" none "D" []).issued =
      [fetchCmd "D", checkoutCmd "D" "B", pullCmd "D" "B"] :=
  existing_dir_no_commit_sequence (fun _ => true) (fun _ => ProcOutcome.mk 0 "" "")
    "R" "B" "D" [] rfl (by decide) (by decide) (by decide)

/-- C3: when the first command (clone for a missing directory, fetch for an
existing one) fails, `clone_or_update_repo` issues no further command and
returns exactly that first command's failure result. -/
theorem first_command_failure_short_circuits (path_exists : String → Bool)
    (proc : List String → ProcOutcome) (repo_url branch : String)
    (commit_hash : Option String) (local_dir : String) (logs : List String) :
    (execute_command proc (if path_exists local_dir then fetchCmd local_dir
        else cloneCmd branch repo_url local_dir)).success = false →
    (clone_or_update_repo path_exists proc repo_url branch commit_hash local_dir
        logs).issued =
      [if path_exists local_dir then fetchCmd local_dir
       else cloneCmd branch repo_url local_dir] ∧
    (clone_or_update_repo path_exists proc repo_url branch commit_hash local_dir
        logs).result =
      execute_command proc (if path_exists local_dir then fetchCmd local_dir
        else cloneCmd branch repo_url local_dir) := by
  intro hfail
  unfold clone_or_update_repo
  cases hd : path_exists local_dir <;> rw [hd] at hfail <;>
    simp only [if_true, if_false, Bool.true_eq_false, Bool.false_eq_true] at hfail ⊢ <;>
    simp [cloneOrUpdateRest, hfail]

/-- Witness for C3: a failing fetch on an existing directory short-circuits. -/
theorem first_command_failure_short_circuits_witness :
    (clone_or_update_repo (fun _ => true) (fun _ => ProcOutcome.mk 1 "" "bad")
        "R" "B" none "D" []).issued = [fetchCmd "D"] ∧
    (clone_or_update_repo (fun _ => true) (fun _ => ProcOutcome.mk 1 "" "bad")
        "R" "B" none "D" []).result =
      execute_command (fun _ => ProcOutcome.mk 1 "" "bad") (fetchCmd "D") :=
  first_command_failure_short_circuits (fun _ => true)
    (fun _ => ProcOutcome.mk 1 "" "bad") "R" "B" none "D" [] (by decide)

/-- C4: with an existing local directory and a non-empty commit hash,
`clone_or_update_repo` issues a fetch, followed — exactly when the fetch
succeeds — by a checkout of that commit hash, and never issues a pull. -/
theorem existing_dir_commit_sequence (path_exists : String → Bool)
    (proc : List String → ProcOutcome) (repo_url branch h local_dir : String)
    (logs : List String)
    (hdir : path_exists local_dir = true) (hne : h ≠ "") :
    ((clone_or_update_repo path_exists proc repo_url branch (some h) local_dir
        logs).issued =
      fetchCmd local_dir ::
        (if (execute_command proc (fetchCmd local_dir)).success then
          [checkoutCmd local_dir h] else [])) ∧
    pullCmd local_dir branch ∉
      (clone_or_update_repo path_exists proc repo_url branch (some h) local_dir
        logs).issued := by
  have hiss : (clone_or_update_repo path_exists proc repo_url branch (some h)
      local_dir logs).issued =
      fetchCmd local_dir ::
        (if (execute_command proc (fetchCmd local_dir)).success then
          [checkoutCmd local_dir h] else []) := by
    unfold clone_or_update_repo
    rw [hdir]
    rw [show (!true) = false from rfl]
    simp only [Bool.false_eq_true, if_false]
    rw [cloneOrUpdateRest_issued]
    cases hf : (execute_command proc (fetchCmd local_dir)).success <;>
      simp [hf, truthy, hne]
  refine ⟨hiss, ?_⟩
  rw [hiss]
  cases hf : (execute_command proc (fetchCmd local_dir)).success <;>
    simp [pullCmd, fetchCmd, checkoutCmd]

/-- Witness for C4: existing directory, commit hash `"H"`, fetch succeeds —
issued commands are fetch then checkout of `"H"`, and no pull. -/
theorem existing_dir_commit_sequence_witness :
    ((clone_or_update_repo (fun _ => true) (fun _ => ProcOutcome.mk 0 "" "")
        "R" "B" (some "H") "D" []).issued =
      fetchCmd "D" ::
        (if (execute_command (fun _ => ProcOutcome.mk 0 "" "")
            (fetchCmd "D")).success then [checkoutCmd "D" "H"] else [])) ∧
    pullCmd "D" "B" ∉
      (clone_or_update_repo (fun _ => true) (fun _ => ProcOutcome.mk 0 "" "")
        "R" "B" (some "H") "D" []).issued :=
  existing_dir_commit_sequence (fun _ => true) (fun _ => ProcOutcome.mk 0 "" "")
    "R" "B" "H" "D" [] rfl (by decide)

/-- C5: `execute_command` returns a success result carrying the trimmed
stdout when the process exits with code zero, and a failure result carrying
the trimmed stderr — or the string form of the error when stderr is empty —
when the exit code is non-zero. -/
theorem execute_command_result_cases (proc : List String → ProcOutcome)
    (command : List String) :
    ((proc command).returncode = 0 →
      execute_command proc command = .ok (pyStrip (proc command).stdout)) ∧
    ((proc command).returncode ≠ 0 →
      execute_command proc command =
        .err (if (proc command).stderr = "" then
                str_called_process_error command (proc command).returncode
              else pyStrip (proc command).stderr)) := by
  unfold execute_command
  constructor
  · intro h
    simp [h]
  · intro h
    by_cases he : (proc command).stderr = "" <;> simp [h, he]

/-- Witness for C5 at concrete processes: exit code 0 with stdout `" out "`,
exit code 1 with stderr `"boom"`, and exit code 2 with empty stderr. -/
theorem execute_command_result_cases_witness :
    execute_command (fun _ => ProcOutcome.mk 0 " out " "") ["git"] = .ok "out" ∧
    execute_command (fun _ => ProcOutcome.mk 1 "" "boom") ["git"] = .err "boom" ∧
    execute_command (fun _ => ProcOutcome.mk 2 "" "") ["git"] =
      .err (str_called_process_error ["git"] 2) := by
  refine ⟨?_, ?_, ?_⟩
  · exact ((execute_command_result_cases
      (fun _ => ProcOutcome.mk 0 " out " "") ["git"]).1 rfl).trans (by decide)
  · exact ((execute_command_result_cases
      (fun _ => ProcOutcome.mk 1 "" "boom") ["git"]).2 (by decide)).trans (by decide)
  · exact ((execute_command_result_cases
      (fun _ => ProcOutcome.mk 2 "" "") ["git"]).2 (by decide)).trans (by decide)

/-- C7: `create_env_file` writes `local_dir/.env` containing exactly one line
`KEY = 'VALUE'` (value single-quoted) followed by a newline per entry; for
the mapping `{"KEY": "value"}` the content is exactly `KEY = 'value'\n`; any
existing file at that path is overwritten (the result does not depend on the
previous store). -/
theorem create_env_file_writes_env (fs fs2 : FileStore) (local_dir : String)
    (env_config : List (String × String)) :
    ((create_env_file fs local_dir env_config).1 (os_path_join local_dir ".env") =
      some (String.join (env_config.map
        (fun kv => kv.1 ++ " = \x27" ++ kv.2 ++ "\x27\n")))) ∧
    envFileContent [("KEY", "value")] = "KEY = \x27value\x27\n" ∧
    (create_env_file fs local_dir env_config).1 (os_path_join local_dir ".env") =
      (create_env_file fs2 local_dir env_config).1 (os_path_join local_dir ".env") := by
  refine ⟨?_, by rfl, ?_⟩ <;> simp [create_env_file, envFileContent]

/-- C8: `set_permission_readonly` sets the permission bits of every file
whose name does not end with the excluded extension to `0o444` and leaves
files with the excluded extension unchanged; in particular with exclusion
`.ipynb`, `a.txt` is set read-only and `b.ipynb` keeps its mode. -/
theorem set_permission_readonly_modes (files : List WalkFile)
    (exclude_ext : String) (logs : List String) :
    ((set_permission_readonly files exclude_ext logs).files =
      files.map (fun f =>
        if pyEndsWith f.name exclude_ext then f else { f with mode := 0o444 })) ∧
    (set_permission_readonly
        [⟨"D", "a.txt", 0o666⟩, ⟨"D", "b.ipynb", 0o666⟩] ".ipynb" []).files =
      [⟨"D", "a.txt", 0o444⟩, ⟨"D", "b.ipynb", 0o666⟩] := by
  refine ⟨?_, by decide⟩
  induction files generalizing logs with
  | nil => rfl
  | cons f rest ih =>
    unfold set_permission_readonly
    cases h : pyEndsWith f.name exclude_ext <;> simp [h, ih]

/-- C9: `clone_or_update_repo`, `set_permission_readonly` and
`set_permission_full` only append to the log sequence: the log before the
call is a prefix of the log after it. -/
theorem logs_append_only (path_exists : String → Bool)
    (proc : List String → ProcOutcome) (repo_url branch : String)
    (commit_hash : Option String) (local_dir : String)
    (files : List WalkFile) (exclude_ext : String)
    (logs1 logs2 logs3 : List String) :
    (∃ t, (clone_or_update_repo path_exists proc repo_url branch commit_hash
        local_dir logs1).logs = logs1 ++ t) ∧
    (∃ t, (set_permission_readonly files exclude_ext logs2).logs = logs2 ++ t) ∧
    (∃ t, (set_permission_full files logs3).logs = logs3 ++ t) := by
  refine ⟨?_, set_permission_readonly_logs files exclude_ext logs2,
    set_permission_full_logs files logs3⟩
  unfold clone_or_update_repo
  cases hd : path_exists local_dir
  · obtain ⟨t, ht⟩ := cloneOrUpdateRest_logs proc branch commit_hash local_dir
      (logs1 ++ ["Cloning repository " ++ repo_url ++ " into " ++ local_dir])
      (execute_command proc (cloneCmd branch repo_url local_dir))
      [cloneCmd branch repo_url local_dir]
    exact ⟨("Cloning repository " ++ repo_url ++ " into " ++ local_dir) :: t,
      by simp [hd, ht, List.append_assoc]⟩
  · obtain ⟨t, ht⟩ := cloneOrUpdateRest_logs proc branch commit_hash local_dir
      (logs1 ++ ["Repository already exists. Fetching latest changes."])
      (execute_command proc (fetchCmd local_dir))
      [fetchCmd local_dir]
    exact ⟨"Repository already exists. Fetching latest changes." :: t,
      by simp [hd, ht, List.append_assoc]⟩

/-- C10: `get_username` returns the value of `USERNAME` when it is set and
non-empty, and falls back to the value of `USER` (possibly absent) when
`USERNAME` is unset or set to the empty string. -/
theorem get_username_cases (env : String → Option String) (u : String) :
    (env "USERNAME" = some u → u ≠ "" → get_username env = some u) ∧
    (env "USERNAME" = none → get_username env = env "USER") ∧
    (env "USERNAME" = some "" → get_username env = env "USER") := by
  exact ⟨fun h hu => by simp [get_username, pyOr, h, hu],
    fun h => by simp [get_username, pyOr, h],
    fun h => by simp [get_username, pyOr, h]⟩

/-- Witness for C10: `USERNAME` set non-empty wins; unset or empty falls back
to `USER`. -/
theorem get_username_cases_witness :
    get_username (fun v => if v = "USERNAME" then some "u1" else some "u2") =
      some "u1" ∧
    get_username (fun v => if v = "USERNAME" then none else some "u2") =
      some "u2" ∧
    get_username (fun v => if v = "USERNAME" then some "" else some "u2") =
      some "u2" := by
  refine ⟨?_, ?_, ?_⟩
  · exact (get_username_cases
      (fun v => if v = "USERNAME" then some "u1" else some "u2") "u1").1
      (by simp) (by simp)
  · simpa using (get_username_cases
      (fun v => if v = "USERNAME" then none else some "u2") "").2.1 (by simp)
  · simpa using (get_username_cases
      (fun v => if v = "USERNAME" then some "" else some "u2") "").2.2 (by simp)

/-- C6: `deploy_repo` catches a network-level failure, printing an error
message and not raising; on receiving a response (with a JSON body) it prints
the success indication exactly when the HTTP status code is 200 and the
failure indication for every other status code. -/
theorem deploy_repo_prints (net : DeployPayload → HttpOutcome)
    (username server_url repo_url branch : String) (commit_hash : Option String)
    (local_dir exclude_ext : String) :
    (∀ msg,
      net ⟨username, repo_url, branch, commit_hash, local_dir, exclude_ext⟩ =
          .failure msg →
        deploy_repo net username server_url repo_url branch commit_hash local_dir
          exclude_ext = .ok ["Error: " ++ msg]) ∧
    (∀ status body,
      net ⟨username, repo_url, branch, commit_hash, local_dir, exclude_ext⟩ =
          .response status (some body) → status = 200 →
        deploy_repo net username server_url repo_url branch commit_hash local_dir
          exclude_ext = .ok ["Deployment successful!", body]) ∧
    (∀ status body,
      net ⟨username, repo_url, branch, commit_hash, local_dir, exclude_ext⟩ =
          .response status (some body) → status ≠ 200 →
        deploy_repo net username server_url repo_url branch commit_hash local_dir
          exclude_ext = .ok ["Deployment failed!", body]) := by
  refine ⟨fun msg h => ?_, fun status body h hs => ?_, fun status body h hs => ?_⟩
  · simp [deploy_repo, h]
  · simp [deploy_repo, h, hs]
  · simp [deploy_repo, h, hs]

/-- Witness for C6: a connection error prints the error message; a 200
response prints the success indication; a 500 response prints the failure
indication. -/
theorem deploy_repo_prints_witness :
    deploy_repo (fun _ => .failure "conn") "u" "S" "R" "B" none "D" ".ipynb" =
      .ok ["Error: conn"] ∧
    deploy_repo (fun _ => .response 200 (some "ok")) "u" "S" "R" "B" none "D"
      ".ipynb" = .ok ["Deployment successful!", "ok"] ∧
    deploy_repo (fun _ => .response 500 (some "no")) "u" "S" "R" "B" none "D"
      ".ipynb" = .ok ["Deployment failed!", "no"] :=
  ⟨(deploy_repo_prints (fun _ => .failure "conn") "u" "S" "R" "B" none "D"
      ".ipynb").1 "conn" rfl,
   (deploy_repo_prints (fun _ => .response 200 (some "ok")) "u" "S" "R" "B" none
      "D" ".ipynb").2.1 200 "ok" rfl rfl,
   (deploy_repo_prints (fun _ => .response 500 (some "no")) "u" "S" "R" "B" none
      "D" ".ipynb").2.2 500 "no" rfl (by decide)⟩
